import Mathlib

/-!
Verification of the Nexus access-log analyzer (`analyze_nexus_logs.py`).

The development shallowly embeds the three core components of the script:
the line extractor (the compiled request and IP regular expressions), the
format classifier (`get_format_rules` / `categorize_request`) and the
aggregator (`analyze_logs`), and proves the specified properties about them.

Strings are modelled as Lean `String`s; the Python `str.lower` used by the
classifier is modelled as per-character ASCII lowering (every pattern in the
rule table is ASCII).  Counters (`collections.Counter` / `defaultdict(int)`)
are modelled as association lists updated in place, exactly as the script
builds them.
-/

namespace NexusLog

/-- The double-quote character, written via its code point. -/
def quoteChar : Char := Char.ofNat 34

/-- `[A-Z]` from the request pattern. -/
def isUpperAZ (c : Char) : Bool := 'A' ≤ c && c ≤ 'Z'

/-- Python regex `\s` (whitespace) restricted to its ASCII members:
space, tab, newline, vertical tab, form feed, carriage return. -/
def isSpacePy (c : Char) : Bool :=
  c = ' ' || c = '\t' || c = '\n' || c = Char.ofNat 11 || c = Char.ofNat 12 || c = '\r'

/-- Python regex `\d` restricted to the ASCII digits. -/
def isDigitPy (c : Char) : Bool := '0' ≤ c && c ≤ '9'

/-- Per-character ASCII lowering; model of Python `str.lower()` on the
ASCII strings the script compares. -/
def pyLower (s : String) : String := String.mk (s.data.map Char.toLower)

/-- `isPrefixList n h` holds when the character list `n` is an initial
segment of `h`. -/
def isPrefixList : List Char → List Char → Bool
  | [], _ => true
  | _ :: _, [] => false
  | a :: as, b :: bs => a = b && isPrefixList as bs

/-- `containsSub n h`: the character list `n` occurs contiguously inside `h`.
Model of Python `n in h` for strings (an empty needle always matches). -/
def containsSub (n : List Char) : List Char → Bool
  | [] => isPrefixList n []
  | c :: rest => isPrefixList n (c :: rest) || containsSub n rest

/-- Python `needle in hay` on strings. -/
def substrIn (needle hay : String) : Bool := containsSub needle.data hay.data

/-- One entry of the detection-rule table: the three pattern tiers of
`get_format_rules`. -/
structure FormatRule where
  user_agents : List String
  file_patterns : List String
  repo_patterns : List String

/-- The `'Maven'` entry of the rule table. -/
def mavenRule : FormatRule :=
  { user_agents := ["Apache-Maven", "maven"]
    file_patterns := ["maven-metadata.xml", ".pom", ".jar", ".war", ".ear"]
    repo_patterns := ["maven", "snapshots", "releases"] }

/-- The `'npm'` entry of the rule table. -/
def npmRule : FormatRule :=
  { user_agents := ["npm/", "yarn/", "pnpm/"]
    file_patterns := ["package.json", ".tgz", "/-/"]
    repo_patterns := ["npm"] }

/-- The `'Docker'` entry of the rule table. -/
def dockerRule : FormatRule :=
  { user_agents := ["docker/", "containerd/"]
    file_patterns := ["/v2/", "/manifests/", "/blobs/"]
    repo_patterns := ["docker"] }

/-- The `'NuGet'` entry of the rule table. -/
def nugetRule : FormatRule :=
  { user_agents := ["NuGet"]
    file_patterns := [".nupkg", ".nuspec", "/Packages("]
    repo_patterns := ["nuget"] }

/-- The `'PyPI'` entry of the rule table. -/
def pypiRule : FormatRule :=
  { user_agents := ["pip/", "twine/", "python-requests"]
    file_patterns := [".whl", ".egg", "/simple/", "/packages/"]
    repo_patterns := ["pypi", "python"] }

/-- The `'P2/Eclipse'` entry of the rule table. -/
def p2Rule : FormatRule :=
  { user_agents := ["p2/", "Eclipse"]
    file_patterns := ["content.jar", "artifacts.jar", ".jar"]
    repo_patterns := ["p2", "eclipse"] }

/-- The rule table returned by `get_format_rules`, as an ordered list
(Python dicts preserve insertion order, which the classifier iterates). -/
def get_format_rules : List (String × FormatRule) :=
  [ ("Maven", mavenRule), ("npm", npmRule), ("Docker", dockerRule),
    ("NuGet", nugetRule), ("PyPI", pypiRule), ("P2/Eclipse", p2Rule) ]

/-- The user-agent check of one rule:
`any(ua.lower() in user_agent_lower for ua in format_rules['user_agents'])`. -/
def uaTier (fr : FormatRule) (ua : String) : Bool :=
  fr.user_agents.any fun pat => substrIn (pyLower pat) ua

/-- The path check of one rule:
`any(pattern.lower() in path_lower for pattern in format_rules['file_patterns'])`. -/
def pathTier (fr : FormatRule) (path : String) : Bool :=
  fr.file_patterns.any fun pat => substrIn (pyLower pat) path

/-- The repository-name check of one rule:
`any(pattern.lower() in repo_lower for pattern in format_rules['repo_patterns'])`. -/
def repoTier (fr : FormatRule) (repo : String) : Bool :=
  fr.repo_patterns.any fun pat => substrIn (pyLower pat) repo

/-- The `for format_name, format_rules in rules.items()` loop of
`categorize_request`: its arguments are the already-lowered inputs. -/
def categorizeGo (repo ua path : String) : List (String × FormatRule) → String
  | [] => "Other"
  | (fname, fr) :: rest =>
    if uaTier fr ua then fname
    else if pathTier fr path then fname
    else if repoTier fr repo then fname
    else categorizeGo repo ua path rest

/-- `categorize_request(repo_name, user_agent, request_path)`. -/
def categorize_request (repo_name user_agent request_path : String) : String :=
  categorizeGo (pyLower repo_name) (pyLower user_agent) (pyLower request_path)
    get_format_rules

/-- `[^/]` from the request pattern. -/
def notSlash (c : Char) : Bool := c != '/'

/-- `[^"]` from the request pattern. -/
def notQuote (c : Char) : Bool := c != quoteChar

/-- `\S` (equivalently `[^\s]`) from the request pattern. -/
def notSpacePy (c : Char) : Bool := !isSpacePy c

/-- Consume the literal characters `lit` from the front of `s`. -/
def dropLit : List Char → List Char → Option (List Char)
  | [], s => some s
  | _ :: _, [] => none
  | c :: cs, d :: ds => if c = d then dropLit cs ds else none

/-- Greedily consume one-or-more characters satisfying `p` (a regex `+` on a
character class), returning the consumed run and the remainder.  In the request
pattern every quantified class is followed by a character the class cannot
match, so greedy consumption with no backtracking has exactly the regex's
semantics. -/
def takePlus (p : Char → Bool) : List Char → Option (List Char × List Char)
  | [] => none
  | c :: rest =>
    if p c then some (c :: rest.takeWhile p, rest.dropWhile p) else none

/-- Like `takePlus` but discarding the consumed run (quantified classes whose
text the pattern does not capture). -/
def dropPlus (p : Char → Bool) (s : List Char) : Option (List Char) :=
  (takePlus p s).map Prod.snd

/-- The request record produced by the four capture groups of
`request_pattern`. -/
structure ReqRec where
  method : String
  path : String
  repoName : String
  userAgent : String
deriving DecidableEq

/-- The suffix of `request_pattern` after the closing quote of the request
segment: `\s+\d+\s+\S+\s+\S+\s+\S+\s+"`.  Returns the remainder positioned
just after the opening quote of the user-agent group. -/
def reqMatchTail (s : List Char) : Option (List Char) :=
  (dropPlus isSpacePy s).bind fun t1 =>
  (dropPlus isDigitPy t1).bind fun t2 =>
  (dropPlus isSpacePy t2).bind fun t3 =>
  (dropPlus notSpacePy t3).bind fun t4 =>
  (dropPlus isSpacePy t4).bind fun t5 =>
  (dropPlus notSpacePy t5).bind fun t6 =>
  (dropPlus isSpacePy t6).bind fun t7 =>
  (dropPlus notSpacePy t7).bind fun t8 =>
  (dropPlus isSpacePy t8).bind fun t9 =>
  dropLit [quoteChar] t9

/-- Attempt to match
`"([A-Z]+) (/repository/([^/]+)/[^\s]*) HTTP/[^"]*"\s+\d+\s+\S+\s+\S+\s+\S+\s+"([^"]*)"`
anchored at the start of `s`, producing the four capture groups. -/
def reqMatchAt (s : List Char) : Option ReqRec :=
  (dropLit [quoteChar] s).bind fun s1 =>
  (takePlus isUpperAZ s1).bind fun mp =>
  (dropLit [' '] mp.2).bind fun s2 =>
  (dropLit "/repository/".data s2).bind fun s3 =>
  (takePlus notSlash s3).bind fun rp =>
  (dropLit ['/'] rp.2).bind fun s4 =>
  (dropLit " HTTP/".data (s4.dropWhile notSpacePy)).bind fun s5 =>
  (dropLit [quoteChar] (s5.dropWhile notQuote)).bind fun s6 =>
  (reqMatchTail s6).bind fun s7 =>
  (dropLit [quoteChar] (s7.dropWhile notQuote)).map fun _ =>
    { method := String.mk mp.1
      path := String.mk ("/repository/".data ++ rp.1 ++ '/' :: s4.takeWhile notSpacePy)
      repoName := String.mk rp.1
      userAgent := String.mk (s7.takeWhile notQuote) }

/-- `request_pattern.search(line)`: try the pattern at each start position,
left to right (the per-position match is deterministic, so the leftmost
matching position gives the regex's result). -/
def reqSearch : List Char → Option ReqRec
  | [] => reqMatchAt []
  | c :: rest =>
    match reqMatchAt (c :: rest) with
    | some r => some r
    | none => reqSearch rest

/-- `ip_pattern.match(line)` with `ip_pattern = ^(\S+)`: the leading
maximal run of non-whitespace characters, provided it is non-empty. -/
def ipMatch : List Char → Option (List Char)
  | [] => none
  | c :: rest =>
    if isSpacePy c then none else some (c :: rest.takeWhile notSpacePy)

/-- Increment the count of key `k` in a counter, starting it at `1` when the
key is absent; model of `counter[k] += 1` on `Counter`/`defaultdict(int)`. -/
def bump (k : String) : List (String × Nat) → List (String × Nat)
  | [] => [(k, 1)]
  | (k2, v) :: rest => if k2 = k then (k2, v + 1) :: rest else (k2, v) :: bump k rest

/-- Look up a count, `0` when the key is absent. -/
def countOf (k : String) : List (String × Nat) → Nat
  | [] => 0
  | (k2, v) :: rest => if k2 = k then v else countOf k rest

/-- `sum(counter.values())`. -/
def total (l : List (String × Nat)) : Nat := (l.map Prod.snd).sum

/-- Look up the inner counter of a nested counter, empty when absent;
model of reading `defaultdict(Counter)` at a key. -/
def nestedCounter (k : String) : List (String × List (String × Nat)) → List (String × Nat)
  | [] => []
  | (k2, c) :: rest => if k2 = k then c else nestedCounter k rest

/-- `nested[k][ip] += 1` on a `defaultdict(Counter)`: creates the inner
counter when `k` is absent. -/
def bumpNested (k ip : String) :
    List (String × List (String × Nat)) → List (String × List (String × Nat))
  | [] => [(k, [(ip, 1)])]
  | (k2, c) :: rest =>
    if k2 = k then (k2, bump ip c) :: rest else (k2, c) :: bumpNested k ip rest

/-- The three tallies of `analyze_logs`: `repo_counter`, `format_counter`
and `ip_format_counter`. -/
structure AnalyzerState where
  repo_counter : List (String × Nat)
  format_counter : List (String × Nat)
  ip_format_counter : List (String × List (String × Nat))
deriving DecidableEq

/-- The empty tallies created before the pass over the file begins. -/
def initState : AnalyzerState :=
  { repo_counter := [], format_counter := [], ip_format_counter := [] }

/-- The body of the `for line in f` loop of `analyze_logs`: search the
request pattern; on a match, bump the repository counter, classify, bump the
format counter, and, when the IP pattern matches, bump the per-format client
counter. -/
def analyze_line (st : AnalyzerState) (line : String) : AnalyzerState :=
  match reqSearch line.data with
  | none => st
  | some r =>
    let format_type := categorize_request r.repoName r.userAgent r.path
    let st1 := { st with repo_counter := bump r.repoName st.repo_counter }
    let st2 := { st1 with format_counter := bump format_type st1.format_counter }
    match ipMatch line.data with
    | none => st2
    | some ip =>
      { st2 with ip_format_counter :=
          bumpNested format_type (String.mk ip) st2.ip_format_counter }

/-- `analyze_logs`, with the file contents given as the list of its lines. -/
def analyze_logs (lines : List String) : AnalyzerState :=
  lines.foldl analyze_line initState

/-- The externally observable outcome of one run of `main`: the exit code,
the tallies handed to `print_results` (when any were), and whether an error
message was reported. -/
structure MainOutcome where
  exitCode : Nat
  tablesPrinted : Option AnalyzerState
  errorReported : Bool
deriving DecidableEq

/-- `main`, with the file read abstracted: `fileContents = none` models
`open` raising (file missing or inaccessible), which `main` catches after no
aggregation has happened; `some lines` models a successful read. -/
def main_run (argv : List String) (fileContents : Option (List String)) : MainOutcome :=
  if argv.length < 2 then
    { exitCode := 1, tablesPrinted := none, errorReported := true }
  else
    match fileContents with
    | none => { exitCode := 1, tablesPrinted := none, errorReported := true }
    | some lines =>
      { exitCode := 0, tablesPrinted := some (analyze_logs lines), errorReported := false }

/-- The line's first character exists and is not whitespace — exactly the
condition under which `ip_pattern` matches. -/
def startsNonWS (line : String) : Bool :=
  match line.data with
  | [] => false
  | c :: _ => !isSpacePy c

/-- A label's rule fires on (already lowered) inputs when any of its three
tiers fires. -/
def labelMatches (fr : FormatRule) (repo ua path : String) : Bool :=
  uaTier fr ua || pathTier fr path || repoTier fr repo

theorem isPrefixList_iff (n : List Char) :
    ∀ h : List Char, isPrefixList n h = true ↔ ∃ t, h = n ++ t := by
  induction n with
  | nil => intro h; simp [isPrefixList]
  | cons a as ih =>
    intro h
    cases h with
    | nil => simp [isPrefixList]
    | cons b bs =>
      simp only [isPrefixList, Bool.and_eq_true, decide_eq_true_eq, ih,
        List.cons_append, List.cons.injEq]
      constructor
      · rintro ⟨hab, t, ht⟩; exact ⟨t, hab.symm, ht⟩
      · rintro ⟨t, hba, ht⟩; exact ⟨hba.symm, t, ht⟩

theorem containsSub_iff (n : List Char) :
    ∀ h : List Char, containsSub n h = true ↔ ∃ l r, h = l ++ n ++ r := by
  intro h
  induction h with
  | nil =>
    simp only [containsSub, isPrefixList_iff]
    constructor
    · rintro ⟨t, ht⟩; exact ⟨[], t, by simpa using ht⟩
    · rintro ⟨l, r, hlr⟩
      have h3 : l = [] ∧ n = [] ∧ r = [] := by
        have h0 := hlr.symm
        simpa [List.append_eq_nil] using h0
      exact ⟨[], by simp [h3.2.1]⟩
  | cons c hs ihh =>
    simp only [containsSub, Bool.or_eq_true, isPrefixList_iff, ihh]
    constructor
    · rintro (⟨t, ht⟩ | ⟨l, r, hlr⟩)
      · exact ⟨[], t, by simpa using ht⟩
      · exact ⟨c :: l, r, by simp [hlr]⟩
    · rintro ⟨l, r, hlr⟩
      cases l with
      | nil => exact Or.inl ⟨r, by simpa using hlr⟩
      | cons x xs =>
        rcases (by simpa using hlr : c = x ∧ hs = xs ++ n ++ r) with ⟨_, h2⟩
        exact Or.inr ⟨xs, r, h2⟩

theorem containsSub_map (f : Char → Char) {n h : List Char}
    (hc : containsSub n h = true) :
    containsSub (n.map f) (h.map f) = true := by
  rcases (containsSub_iff n h).mp hc with ⟨l, r, rfl⟩
  exact (containsSub_iff _ _).mpr ⟨l.map f, r.map f, by simp⟩

theorem containsSub_trans {a b c : List Char} (hab : containsSub a b = true)
    (hbc : containsSub b c = true) : containsSub a c = true := by
  rcases (containsSub_iff a b).mp hab with ⟨l1, r1, rfl⟩
  rcases (containsSub_iff _ c).mp hbc with ⟨l2, r2, rfl⟩
  exact (containsSub_iff a _).mpr ⟨l2 ++ l1, r1 ++ r2, by simp⟩

/-- Containment of a needle that lowering leaves unchanged survives
`pyLower` of the haystack. -/
theorem substrIn_pyLower {needle hay : String}
    (hfix : needle.data.map Char.toLower = needle.data)
    (hc : substrIn needle hay = true) :
    substrIn needle (pyLower hay) = true := by
  have := containsSub_map Char.toLower (n := needle.data) (h := hay.data) hc
  rwa [hfix] at this

theorem total_bump (k : String) : ∀ l, total (bump k l) = total l + 1 := by
  intro l
  induction l with
  | nil => simp [bump, total]
  | cons p rest ih =>
    obtain ⟨k2, v⟩ := p
    by_cases hk : k2 = k
    · simp [bump, hk, total]; omega
    · simp only [bump, if_neg hk, total, List.map_cons, List.sum_cons] at *
      omega

theorem countOf_bump_self (k : String) : ∀ l, countOf k (bump k l) = countOf k l + 1 := by
  intro l
  induction l with
  | nil => simp [bump, countOf]
  | cons p rest ih =>
    obtain ⟨k2, v⟩ := p
    by_cases hk : k2 = k
    · simp [bump, countOf, hk]
    · simp [bump, countOf, hk, ih]

theorem countOf_bump_ne {k k2 : String} (hne : k ≠ k2) :
    ∀ l, countOf k (bump k2 l) = countOf k l := by
  intro l
  induction l with
  | nil => simp [bump, countOf, Ne.symm hne]
  | cons p rest ih =>
    obtain ⟨k3, v⟩ := p
    by_cases hk : k3 = k2
    · simp [bump, countOf, hk, Ne.symm hne]
    · simp [bump, countOf, hk, ih]

theorem nestedCounter_bumpNested_self (k ip : String) :
    ∀ l, nestedCounter k (bumpNested k ip l) = bump ip (nestedCounter k l) := by
  intro l
  induction l with
  | nil => simp [bumpNested, nestedCounter, bump]
  | cons p rest ih =>
    obtain ⟨k2, c⟩ := p
    by_cases hk : k2 = k
    · simp [bumpNested, nestedCounter, hk]
    · simp [bumpNested, nestedCounter, hk, ih]

theorem nestedCounter_bumpNested_ne {k k2 : String} (hne : k ≠ k2) (ip : String) :
    ∀ l, nestedCounter k (bumpNested k2 ip l) = nestedCounter k l := by
  intro l
  induction l with
  | nil => simp [bumpNested, nestedCounter, Ne.symm hne]
  | cons p rest ih =>
    obtain ⟨k3, c⟩ := p
    by_cases hk : k3 = k2
    · subst hk
      simp [bumpNested, nestedCounter, Ne.symm hne]
    · simp [bumpNested, nestedCounter, hk, ih]

theorem ipMatch_of_startsNonWS {line : String} (h : startsNonWS line = true) :
    ∃ ip, ipMatch line.data = some ip := by
  unfold startsNonWS at h
  cases hd : line.data with
  | nil => rw [hd] at h; simp at h
  | cons c rest =>
    rw [hd] at h
    simp only [Bool.not_eq_true'] at h
    exact ⟨c :: rest.takeWhile notSpacePy, by simp [ipMatch, h]⟩

theorem analyze_line_nomatch {line : String} (st : AnalyzerState)
    (h : reqSearch line.data = none) : analyze_line st line = st := by
  simp [analyze_line, h]

theorem analyze_line_repo {line : String} {r : ReqRec} (st : AnalyzerState)
    (h : reqSearch line.data = some r) :
    (analyze_line st line).repo_counter = bump r.repoName st.repo_counter := by
  simp only [analyze_line, h]
  cases hip : ipMatch line.data <;> simp

theorem analyze_line_format {line : String} {r : ReqRec} (st : AnalyzerState)
    (h : reqSearch line.data = some r) :
    (analyze_line st line).format_counter
      = bump (categorize_request r.repoName r.userAgent r.path) st.format_counter := by
  simp only [analyze_line, h]
  cases hip : ipMatch line.data <;> simp

theorem analyze_line_ip_none {line : String} {r : ReqRec} (st : AnalyzerState)
    (h : reqSearch line.data = some r) (hip : ipMatch line.data = none) :
    (analyze_line st line).ip_format_counter = st.ip_format_counter := by
  simp [analyze_line, h, hip]

theorem analyze_line_ip_some {line : String} {r : ReqRec} {ip : List Char}
    (st : AnalyzerState) (h : reqSearch line.data = some r)
    (hip : ipMatch line.data = some ip) :
    (analyze_line st line).ip_format_counter
      = bumpNested (categorize_request r.repoName r.userAgent r.path)
          (String.mk ip) st.ip_format_counter := by
  simp [analyze_line, h, hip]

theorem foldl_totals :
    ∀ (lines : List String) (st : AnalyzerState),
      total (lines.foldl analyze_line st).repo_counter
          = total st.repo_counter + lines.countP (fun l => (reqSearch l.data).isSome) ∧
      total (lines.foldl analyze_line st).format_counter
          = total st.format_counter + lines.countP (fun l => (reqSearch l.data).isSome)
  | [], st => by simp
  | line :: rest, st => by
    rw [List.foldl_cons, List.countP_cons]
    rcases foldl_totals rest (analyze_line st line) with ⟨h1, h2⟩
    cases hr : reqSearch line.data with
    | none =>
      rw [analyze_line_nomatch st hr] at h1 h2 ⊢
      constructor
      · rw [h1]; simp
      · rw [h2]; simp
    | some r =>
      rw [analyze_line_repo st hr, total_bump] at h1
      rw [analyze_line_format st hr, total_bump] at h2
      constructor
      · rw [h1]; simp [hr]; omega
      · rw [h2]; simp [hr]; omega

theorem analyze_line_client_sum {line : String} (st : AnalyzerState) (label : String)
    (hline : (reqSearch line.data).isSome = true → startsNonWS line = true)
    (h : total (nestedCounter label st.ip_format_counter)
          = countOf label st.format_counter) :
    total (nestedCounter label (analyze_line st line).ip_format_counter)
      = countOf label (analyze_line st line).format_counter := by
  cases hr : reqSearch line.data with
  | none => rw [analyze_line_nomatch st hr]; exact h
  | some r =>
    obtain ⟨ip, hip⟩ := ipMatch_of_startsNonWS (hline (by simp [hr]))
    rw [analyze_line_format st hr, analyze_line_ip_some st hr hip]
    by_cases hl : label = categorize_request r.repoName r.userAgent r.path
    · rw [← hl, nestedCounter_bumpNested_self, total_bump, countOf_bump_self, h]
    · rw [nestedCounter_bumpNested_ne hl, countOf_bump_ne hl, h]

theorem foldl_client_sum (label : String) :
    ∀ (lines : List String) (st : AnalyzerState),
      (∀ line ∈ lines, (reqSearch line.data).isSome = true → startsNonWS line = true) →
      total (nestedCounter label st.ip_format_counter) = countOf label st.format_counter →
      total (nestedCounter label (lines.foldl analyze_line st).ip_format_counter)
        = countOf label (lines.foldl analyze_line st).format_counter
  | [], _, _, h => h
  | line :: rest, st, hws, h => by
    rw [List.foldl_cons]
    exact foldl_client_sum label rest _
      (fun l hl => hws l (List.mem_cons_of_mem _ hl))
      (analyze_line_client_sum st label (hws line (List.mem_cons_self _ _)) h)

/-- The classifier loop returns the name paired with the first rule any of
whose tiers fires, and the catch-all otherwise. -/
theorem categorizeGo_eq_find (repo ua path : String) :
    ∀ rules : List (String × FormatRule),
      categorizeGo repo ua path rules
        = (((rules.find? fun pr => labelMatches pr.2 repo ua path).map Prod.fst).getD
            "Other")
  | [] => by simp [categorizeGo]
  | (fname, fr) :: rest => by
    rw [categorizeGo]
    by_cases h1 : uaTier fr ua = true
    · simp [List.find?, labelMatches, h1]
    · by_cases h2 : pathTier fr path = true
      · simp [List.find?, labelMatches, h1, h2]
      · by_cases h3 : repoTier fr repo = true
        · simp [List.find?, labelMatches, h1, h2, h3]
        · simp [List.find?, labelMatches, h1, h2, h3,
            categorizeGo_eq_find repo ua path rest]

theorem takePlus_ne_nil {p : Char → Bool} :
    ∀ {s : List Char} {pr : List Char × List Char},
      takePlus p s = some pr → pr.1 ≠ []
  | [], _, h => by simp [takePlus] at h
  | c :: rest, pr, h => by
    by_cases hc : p c = true
    · simp only [takePlus, hc, if_true] at h
      injection h with h2
      rw [← h2]
      simp
    · simp [takePlus, hc] at h

theorem reqMatchAt_repoName_ne {s : List Char} {r : ReqRec}
    (h : reqMatchAt s = some r) : r.repoName ≠ "" := by
  simp only [reqMatchAt, Option.bind_eq_some, Option.map_eq_some'] at h
  obtain ⟨s1, _, mp, hmp, s2, _, s3, _, rp, hrp, s4, _, s5, _, s6, _, s7, _, _, _, hr⟩ := h
  have hne : rp.1 ≠ [] := takePlus_ne_nil hrp
  intro he
  apply hne
  have hdata := congrArg String.data (hr ▸ he)
  simpa using hdata

theorem reqSearch_repoName_ne :
    ∀ {s : List Char} {r : ReqRec}, reqSearch s = some r → r.repoName ≠ ""
  | [], r, h => reqMatchAt_repoName_ne h
  | c :: rest, r, h => by
    rw [reqSearch] at h
    cases hm : reqMatchAt (c :: rest) with
    | some r2 =>
      rw [hm] at h
      exact reqMatchAt_repoName_ne (hm.trans h)
    | none =>
      rw [hm] at h
      exact reqSearch_repoName_ne h

/-- C1: for every triple, the classifier returns the first format label, in
the declared order Maven, npm, Docker, NuGet, PyPI, P2/Eclipse, any of whose
tiers matches (a user-agent substring in the lower-cased user-agent, a path
substring in the lower-cased path, or a repo-name substring in the
lower-cased repository name), and the catch-all label when no tier of any
label matches; once any tier of a label matches it never falls through to a
later label. -/
theorem claim1_first_matching_label (repo_name user_agent request_path : String) :
    categorize_request repo_name user_agent request_path
      = (((get_format_rules.find? fun pr =>
            labelMatches pr.2 (pyLower repo_name) (pyLower user_agent)
              (pyLower request_path)).map Prod.fst).getD "Other") :=
  categorizeGo_eq_find (pyLower repo_name) (pyLower user_agent)
    (pyLower request_path) get_format_rules

/-- C4: after processing any sequence of lines, the sum of the per-format
counts equals the sum of the per-repository counts, and that common sum is
the number of lines on which the request pattern matched. -/
theorem claim4_totals_balance (lines : List String) :
    total (analyze_logs lines).format_counter
        = total (analyze_logs lines).repo_counter ∧
    total (analyze_logs lines).repo_counter
        = lines.countP (fun l => (reqSearch l.data).isSome) := by
  rcases foldl_totals lines initState with ⟨h1, h2⟩
  unfold analyze_logs
  rw [h1, h2]
  simp [initState, total]

/-- C5: a line on which the request pattern does not match leaves all three
tallies unchanged (and processing is total, so no error is raised). -/
theorem claim5_unmatched_line_unchanged (st : AnalyzerState) (line : String)
    (h : reqSearch line.data = none) :
    analyze_line st line = st :=
  analyze_line_nomatch st h

/-- Witness for C5 at the favicon line of the spec, which the request
pattern does not match, applied to a non-trivial starting state. -/
theorem claim5_witness :
    analyze_line
        { repo_counter := [("internal-libs", 1)]
          format_counter := [("Maven", 1)]
          ip_format_counter := [("Maven", [("10.0.0.1", 1)])] }
        "192.168.0.1 - - [1] \"GET /favicon.ico HTTP/1.1\" 200 - 100 5 \"Mozilla\" [qtp]"
      = { repo_counter := [("internal-libs", 1)]
          format_counter := [("Maven", 1)]
          ip_format_counter := [("Maven", [("10.0.0.1", 1)])] } :=
  claim5_unmatched_line_unchanged _ _ (by decide)

/-- C6: processing the spec's single Maven log line from empty tallies
yields one request for repository internal-libs, one for format Maven, and
one for client 10.0.0.1 under Maven. -/
theorem claim6_end_to_end_maven_line :
    countOf "internal-libs"
        (analyze_logs ["10.0.0.1 - - [1] \"GET /repository/internal-libs/com/foo/1.0/foo-1.0.jar HTTP/1.1\" 200 - 1024 5 \"Apache-Maven/3.8.1\" [qtp]"]).repo_counter = 1 ∧
    countOf "Maven"
        (analyze_logs ["10.0.0.1 - - [1] \"GET /repository/internal-libs/com/foo/1.0/foo-1.0.jar HTTP/1.1\" 200 - 1024 5 \"Apache-Maven/3.8.1\" [qtp]"]).format_counter = 1 ∧
    countOf "10.0.0.1"
        (nestedCounter "Maven"
          (analyze_logs ["10.0.0.1 - - [1] \"GET /repository/internal-libs/com/foo/1.0/foo-1.0.jar HTTP/1.1\" 200 - 1024 5 \"Apache-Maven/3.8.1\" [qtp]"]).ip_format_counter) = 1 := by
  refine ⟨by decide, by decide, by decide⟩

/-- C7: whenever the request pattern matches a line and a request record is
produced, the extracted repository name is non-empty. -/
theorem claim7_repo_name_nonempty (line : String) (r : ReqRec)
    (h : reqSearch line.data = some r) : r.repoName ≠ "" :=
  reqSearch_repoName_ne h

/-- Witness for C7 at the spec's Maven log line. -/
theorem claim7_witness :
    (ReqRec.mk "GET" "/repository/internal-libs/com/foo/1.0/foo-1.0.jar"
        "internal-libs" "Apache-Maven/3.8.1").repoName ≠ "" :=
  claim7_repo_name_nonempty
    "10.0.0.1 - - [1] \"GET /repository/internal-libs/com/foo/1.0/foo-1.0.jar HTTP/1.1\" 200 - 1024 5 \"Apache-Maven/3.8.1\" [qtp]"
    _ (by decide)

/-- C8: when the input file cannot be opened, the run exits non-zero, no
result tables are printed, and an error is reported (the aggregation step
is never reached: the outcome carries no tallies). -/
theorem claim8_unreadable_file (argv : List String) (h : 2 ≤ argv.length) :
    (main_run argv none).exitCode ≠ 0 ∧
    (main_run argv none).tablesPrinted = none ∧
    (main_run argv none).errorReported = true := by
  unfold main_run
  rw [if_neg (by omega)]
  exact ⟨by decide, rfl, rfl⟩

/-- Witness for C8 with the usual two-element argument vector. -/
theorem claim8_witness :
    (main_run ["analyze_nexus_logs.py", "nexus.log"] none).exitCode ≠ 0 ∧
    (main_run ["analyze_nexus_logs.py", "nexus.log"] none).tablesPrinted = none ∧
    (main_run ["analyze_nexus_logs.py", "nexus.log"] none).errorReported = true :=
  claim8_unreadable_file _ (by decide)

/-- C3 (counterexample): a line that matches the request pattern but whose
first character is whitespace is counted in `format_counter` while the IP
pattern `^(\S+)` fails, so the per-client counts for its label sum to 0,
not to the label's total. -/
theorem claim3_counterexample :
    ¬ (total (nestedCounter "Maven"
          (analyze_logs
            [" \"GET /repository/maven-releases/x.jar HTTP/1.1\" 200 - 10 5 \"u\""]).ip_format_counter)
        = countOf "Maven"
            (analyze_logs
              [" \"GET /repository/maven-releases/x.jar HTTP/1.1\" 200 - 10 5 \"u\""]).format_counter) := by
  decide

/-- C3 (amended): provided every line on which the request pattern matches
begins with a non-whitespace character (so the IP pattern also matches), the
per-client counts recorded under any format label sum to the total count
recorded for that label. -/
theorem claim3_client_sums_match (lines : List String) (label : String)
    (hws : ∀ line ∈ lines, (reqSearch line.data).isSome = true → startsNonWS line = true) :
    total (nestedCounter label (analyze_logs lines).ip_format_counter)
      = countOf label (analyze_logs lines).format_counter :=
  foldl_client_sum label lines initState hws rfl

/-- Witness for the amended C3 at the spec's Maven log line. -/
theorem claim3_witness :
    total (nestedCounter "Maven"
        (analyze_logs
          ["10.0.0.1 - - [1] \"GET /repository/internal-libs/com/foo/1.0/foo-1.0.jar HTTP/1.1\" 200 - 1024 5 \"Apache-Maven/3.8.1\" [qtp]"]).ip_format_counter)
      = countOf "Maven"
          (analyze_logs
            ["10.0.0.1 - - [1] \"GET /repository/internal-libs/com/foo/1.0/foo-1.0.jar HTTP/1.1\" 200 - 1024 5 \"Apache-Maven/3.8.1\" [qtp]"]).format_counter :=
  claim3_client_sums_match _ "Maven" (by decide)

/-- C2: declared table order decides ambiguous inputs: any repository name
containing "maven" classifies as Maven whenever the user-agent contains
"npm/" (Maven's repo-name tier fires before npm is ever considered), and
the repository "maven-npm-hybrid" with empty user-agent and a path matching
no file pattern of any label classifies as Maven, not npm. -/
theorem claim2_declared_order_decides :
    (∀ repo_name user_agent request_path : String,
        substrIn "maven" repo_name = true →
        substrIn "npm/" user_agent = true →
        categorize_request repo_name user_agent request_path = "Maven") ∧
    (∀ request_path : String,
        (∀ pr ∈ get_format_rules, pathTier pr.2 (pyLower request_path) = false) →
        categorize_request "maven-npm-hybrid" "" request_path = "Maven") := by
  constructor
  · intro repo ua path hrepo _
    have hm : substrIn "maven" (pyLower repo) = true :=
      substrIn_pyLower (by decide) hrepo
    have hrt : repoTier mavenRule (pyLower repo) = true := by
      simp only [repoTier, mavenRule, List.any_cons, List.any_nil, Bool.or_eq_true]
      exact Or.inl (by rw [show pyLower "maven" = "maven" by decide]; exact hm)
    simp [categorize_request, get_format_rules, categorizeGo, hrt]
  · intro path hpath
    have hpt : pathTier mavenRule (pyLower path) = false :=
      hpath ("Maven", mavenRule) (by simp [get_format_rules])
    have hua : uaTier mavenRule (pyLower "") = false := by decide
    have hrt : repoTier mavenRule (pyLower "maven-npm-hybrid") = true := by decide
    simp [categorize_request, get_format_rules, categorizeGo, hua, hpt, hrt]

/-- Witness for C2 at two concrete inputs. -/
theorem claim2_witness :
    categorize_request "team-maven-repo" "npm/9.5.0"
        "/repository/team-maven-repo/p" = "Maven" ∧
    categorize_request "maven-npm-hybrid" "" "/x" = "Maven" :=
  ⟨claim2_declared_order_decides.1 _ _ _ (by decide) (by decide),
   claim2_declared_order_decides.2 _ (by decide)⟩

/-- A path containing ".jar" fires Maven's path tier (".jar" is among
Maven's file patterns). -/
theorem mavenPathTier_of_jar {pathL : String}
    (hjar : substrIn ".jar" pathL = true) :
    pathTier mavenRule pathL = true := by
  simp only [pathTier, mavenRule, List.any_cons, List.any_nil, Bool.or_eq_true]
  exact Or.inr (Or.inr (Or.inl
    (by rw [show pyLower ".jar" = ".jar" by decide]; exact hjar)))

/-- When the classifier loop returns the P2/Eclipse label, the hit was that
rule's user-agent or repository-name tier: its path tier cannot have been
decisive since each of its path patterns contains ".jar", which Maven's
path tier (checked earlier) would already have matched. -/
theorem p2_label_needs_ua_or_repo {repoL uaL pathL : String}
    (h : categorizeGo repoL uaL pathL get_format_rules = "P2/Eclipse") :
    uaTier p2Rule uaL = true ∨ repoTier p2Rule repoL = true := by
  rw [categorizeGo_eq_find] at h
  cases m1 : labelMatches mavenRule repoL uaL pathL with
  | true => simp [get_format_rules, List.find?, m1] at h
  | false =>
    cases m2 : labelMatches npmRule repoL uaL pathL with
    | true => simp [get_format_rules, List.find?, m1, m2] at h
    | false =>
      cases m3 : labelMatches dockerRule repoL uaL pathL with
      | true => simp [get_format_rules, List.find?, m1, m2, m3] at h
      | false =>
        cases m4 : labelMatches nugetRule repoL uaL pathL with
        | true => simp [get_format_rules, List.find?, m1, m2, m3, m4] at h
        | false =>
          cases m5 : labelMatches pypiRule repoL uaL pathL with
          | true => simp [get_format_rules, List.find?, m1, m2, m3, m4, m5] at h
          | false =>
            cases m6 : labelMatches p2Rule repoL uaL pathL with
            | false =>
              simp [get_format_rules, List.find?, m1, m2, m3, m4, m5, m6] at h
            | true =>
              have m6' : (uaTier p2Rule uaL = true ∨ pathTier p2Rule pathL = true) ∨
                  repoTier p2Rule repoL = true := by
                simpa [labelMatches, Bool.or_eq_true] using m6
              rcases m6' with (hu | hp2) | hr2
              · exact Or.inl hu
              · exfalso
                have hmp : (uaTier mavenRule uaL = false ∧
                    pathTier mavenRule pathL = false) ∧
                    repoTier mavenRule repoL = false := by
                  simpa [labelMatches, Bool.or_eq_true] using m1
                have hjar : substrIn ".jar" pathL = true := by
                  have hp2' : substrIn (pyLower "content.jar") pathL = true ∨
                      substrIn (pyLower "artifacts.jar") pathL = true ∨
                      substrIn (pyLower ".jar") pathL = true := by
                    simpa [pathTier, p2Rule, Bool.or_eq_true] using hp2
                  rcases hp2' with h1 | h1 | h1
                  · exact containsSub_trans (by decide) h1
                  · exact containsSub_trans (by decide) h1
                  · exact containsSub_trans (by decide) h1
                have hc := hmp.1.2
                rw [mavenPathTier_of_jar hjar] at hc
                simp at hc
              · exact Or.inr hr2

/-- C9: any request whose path contains ".jar" (case-insensitively) is
classified Maven, so the P2/Eclipse path patterns can never be decisive:
that label is reachable only through its user-agent or repo-name tier. -/
theorem claim9_jar_always_maven :
    (∀ repo_name user_agent request_path : String,
        substrIn ".jar" (pyLower request_path) = true →
        categorize_request repo_name user_agent request_path = "Maven") ∧
    (∀ repo_name user_agent request_path : String,
        categorize_request repo_name user_agent request_path = "P2/Eclipse" →
        uaTier p2Rule (pyLower user_agent) = true ∨
        repoTier p2Rule (pyLower repo_name) = true) := by
  constructor
  · intro repo ua path hjar
    have hpt := mavenPathTier_of_jar hjar
    simp [categorize_request, get_format_rules, categorizeGo, hpt]
  · intro repo ua path h
    exact p2_label_needs_ua_or_repo h

/-- Witness for C9: a ".jar" path from a non-Maven-named repository still
classifies Maven, and a triple actually classified P2/Eclipse satisfies the
derived disjunction. -/
theorem claim9_witness :
    categorize_request "release-candidates" "gradle/8.0"
        "/repository/release-candidates/a/b-1.0.jar" = "Maven" ∧
    (uaTier p2Rule (pyLower "") = true ∨
      repoTier p2Rule (pyLower "eclipse-mirror") = true) :=
  ⟨claim9_jar_always_maven.1 _ _ _ (by decide),
   claim9_jar_always_maven.2 "eclipse-mirror" "" "/x" (by decide)⟩

/-- C10: the classifier is a pure function of its triple of inputs: equal
inputs give equal labels, regardless of any other processing. -/
theorem claim10_classifier_deterministic (r1 u1 p1 r2 u2 p2 : String)
    (hr : r1 = r2) (hu : u1 = u2) (hp : p1 = p2) :
    categorize_request r1 u1 p1 = categorize_request r2 u2 p2 := by
  rw [hr, hu, hp]

/-- Witness for C10 at a concrete triple. -/
theorem claim10_witness :
    categorize_request "internal-libs" "Apache-Maven/3.8.1"
        "/repository/internal-libs/com/foo/1.0/foo-1.0.jar"
      = categorize_request "internal-libs" "Apache-Maven/3.8.1"
        "/repository/internal-libs/com/foo/1.0/foo-1.0.jar" :=
  claim10_classifier_deterministic _ _ _ _ _ _ rfl rfl rfl

end NexusLog
